import Mathlib

/-!
Shallow embedding of `src/Main.py` (TDuffin/Arcade-State-Machine).

The source is a small state-machine shell over the `arcade` windowing
library: a `Game` driver owns the active `State` instance, a registry of
state constructors and forwards frame/input callbacks; states request a
transition by setting `done`/`next_state` and termination by setting
`quit`.  We embed the driver and the three state classes (`State`,
`MainMenu`, `Scene`) as pure Lean functions.

Modelling conventions:
- Python attribute lookup on an attribute never assigned is an
  `AttributeError`; attributes that are only assigned in some methods are
  modelled as `Option` fields initialised to `none`, and hooks that read
  them return `Except Signal _`.
- `quit()` raises `SystemExit`; a failed dictionary lookup raises
  `KeyError`.  Both are modelled by the `Signal` error type threaded
  through `Except`.
- `randint(150, 200)` inside the `update` hooks is modelled by passing the
  drawn number `x` as an explicit argument.
- Python object identity is modelled by an `instId : Nat` stamped on every
  constructed state instance from a counter `nextId` held by the driver; a
  fresh construction increments the counter.
- The persist dictionary is modelled with value semantics as an
  association list; the source never exploits aliasing of the bag in a way
  observable through the driver (each state's `persist` field is the only
  handle the driver reads, and `key_down` re-stores `text_position` into
  the bag after mutating it).
-/

set_option autoImplicit false

namespace ArcadeSM

/-- Key code of the space bar in the arcade/pyglet `key` module (`ac.key.SPACE`). -/
def SPACE : Nat := 32

/-- Key code of the escape key in the arcade/pyglet `key` module (`ac.key.ESCAPE`). -/
def ESCAPE : Nat := 65307

/-- Values stored in the persist dictionary.  The source only ever stores the
`text_position` two-element list of integers. -/
inductive PVal where
  | pos (x y : Int) : PVal
  deriving DecidableEq, Repr

/-- The persist dictionary: a string-keyed mapping, modelled as an
association list (first binding wins). -/
abbrev PersistBag := List (String × PVal)

/-- Dictionary lookup (`bag[k]` / `bag.get(k)` successful case). -/
def bagLookup : PersistBag → String → Option PVal
  | [], _ => none
  | (k, v) :: rest, key => if k = key then some v else bagLookup rest key

/-- Dictionary assignment `bag[key] = v`: replaces an existing binding or
appends a new one. -/
def bagInsert : PersistBag → String → PVal → PersistBag
  | [], key, v => [(key, v)]
  | (k, w) :: rest, key, v =>
      if k = key then (key, v) :: rest else (k, w) :: bagInsert rest key v

/-- `bag.get(key, default)` specialised to position values, as used by
`MainMenu.setup` and `Scene.setup` for `"text_position"`. -/
def bagGetPos (b : PersistBag) (key : String) (dflt : Int × Int) : Int × Int :=
  match bagLookup b key with
  | some (.pos x y) => (x, y)
  | none => dflt

/-- The closed set of state classes defined by the source: the base class
`State` and its two subclasses `MainMenu` and `Scene`. -/
inductive StateKind where
  | base
  | mainMenu
  | scene
  deriving DecidableEq, Repr

/-- Abnormal control flow of the source: `quit()` raising `SystemExit`, a
failed dictionary lookup (`KeyError`, carrying the offending key, `none`
standing for Python's `None` key), and reading a never-assigned attribute
(`AttributeError`, carrying the attribute name). -/
inductive Signal where
  | sysExit
  | keyError (k : Option String)
  | attrError (attr : String)
  deriving DecidableEq, Repr

/-- A state instance: the fields assigned by `State.__init__` plus the
subclass attributes (`text`, `text_position`, `col`) which are `none`
until the corresponding method first assigns them, and the identity
stamp `instId`. -/
structure State where
  kind : StateKind
  instId : Nat
  persist : PersistBag
  next_state : Option String
  done : Bool
  quit : Bool
  text : Option String
  text_position : Option (Int × Int)
  col : Option (Nat × Nat × Nat)
  deriving DecidableEq, Repr

/-- `State.__init__` (also the body of `MainMenu.__init__` and
`Scene.__init__`, which only call `super().__init__()`): fresh instance of
class `kind` with identity `id`. -/
def State.init (kind : StateKind) (id : Nat) : State :=
  { kind := kind, instId := id, persist := [], next_state := none,
    done := false, quit := false,
    text := none, text_position := none, col := none }

/-- The text assigned by `MainMenu.setup`. -/
def mainMenuText : String :=
  "Scene One.\nPress Space to Change Scenes,\nPress Esc. to Exit."

/-- The text assigned by `Scene.setup`. -/
def sceneText : String :=
  "Scene Two.\nPress Space to Change Scenes,\nPress Esc. to Exit."

/-- The `setup` hook, dispatched on the instance's class.  The base class
stores the bag; `MainMenu.setup` and `Scene.setup` additionally set their
text and pull `text_position` from the bag with default `[0, 300]`. -/
def State.setup (s : State) (persist : PersistBag) : State :=
  match s.kind with
  | .base => { s with persist := persist }
  | .mainMenu =>
      { s with persist := persist, text := some mainMenuText,
               text_position := some (bagGetPos persist "text_position" (0, 300)) }
  | .scene =>
      { s with persist := persist, text := some sceneText,
               text_position := some (bagGetPos persist "text_position" (0, 300)) }

/-- The `key_down` hook.  The base class ignores the event.  `MainMenu` and
`Scene` set `quit` on ESCAPE and, on SPACE, increment `text_position` by
`(10, 10)`, store it into the bag, set `done` and set `next_state`
(`"SCENE"` from the menu, `"MAIN"` from the scene).  Reading
`text_position` before `setup` assigned it is an `AttributeError`. -/
def State.key_down (s : State) (key : Nat) (mod : Nat) : Except Signal State :=
  match s.kind with
  | .base => .ok s
  | .mainMenu =>
      let s1 := if key = ESCAPE then { s with quit := true } else s
      if key = SPACE then
        match s1.text_position with
        | none => .error (.attrError "text_position")
        | some (tx, ty) =>
            .ok { s1 with
                  text_position := some (tx + 10, ty + 10),
                  persist := bagInsert s1.persist "text_position" (.pos (tx + 10) (ty + 10)),
                  done := true, next_state := some "SCENE" }
      else .ok s1
  | .scene =>
      let s1 := if key = ESCAPE then { s with quit := true } else s
      if key = SPACE then
        match s1.text_position with
        | none => .error (.attrError "text_position")
        | some (tx, ty) =>
            .ok { s1 with
                  text_position := some (tx + 10, ty + 10),
                  persist := bagInsert s1.persist "text_position" (.pos (tx + 10) (ty + 10)),
                  done := true, next_state := some "MAIN" }
      else .ok s1

/-- The `key_release` hook: a no-op in the base class, not overridden by
either subclass. -/
def State.key_release (s : State) (key : Nat) (mod : Nat) : State := s

/-- The `update` hook.  The base class ignores it; `MainMenu` assigns
`col = (255, x, x)` and `Scene` assigns `col = (x, 255, x)` where `x` is
the drawn `randint(150, 200)` value, passed explicitly.  `dt` is unused by
every implementation in the source. -/
def State.update (s : State) (x : Nat) (dt : Nat) : State :=
  match s.kind with
  | .base => s
  | .mainMenu => { s with col := some (255, x, x) }
  | .scene => { s with col := some (x, 255, x) }

/-- The `draw` hook.  The base class draws nothing.  `MainMenu.draw` and
`Scene.draw` read `self.col`, `self.text` and `self.text_position` in that
order (via `ac.set_background_color` and `ac.draw_text`); reading an
attribute never assigned is an `AttributeError`.  No field is written, so
success returns the instance unchanged. -/
def State.draw (s : State) : Except Signal State :=
  match s.kind with
  | .base => .ok s
  | .mainMenu | .scene =>
      match s.col with
      | none => .error (.attrError "col")
      | some _ =>
          match s.text with
          | none => .error (.attrError "text")
          | some _ =>
              match s.text_position with
              | none => .error (.attrError "text_position")
              | some _ => .ok s

/-- The state registry: name-to-class mapping (`game_states` in `main`). -/
abbrev Registry := List (String × StateKind)

/-- Dictionary lookup in the registry (`self.states[k]`). -/
def regLookup : Registry → String → Option StateKind
  | [], _ => none
  | (k, kind) :: rest, key => if k = key then some kind else regLookup rest key

/-- The driver (`Game(ac.Window)`): window size, the registry, the active
state, the `self.persist` dictionary created at construction (only ever
passed to the first state's `setup`), and the fresh-instance counter
modelling object identity. -/
structure Game where
  width : Nat
  height : Nat
  states : Registry
  state : State
  persist : PersistBag
  nextId : Nat
  deriving DecidableEq, Repr

/-- `Game.__init__(width, height, states, initial_state)`: looks up
`states[initial_state]` (a `KeyError` if absent), constructs a fresh
instance and calls its `setup` with the empty `self.persist` dictionary. -/
def Game.init (width height : Nat) (states : Registry) (initial_state : String) :
    Except Signal Game :=
  match regLookup states initial_state with
  | none => .error (.keyError (some initial_state))
  | some kind =>
      .ok { width := width, height := height, states := states,
            state := (State.init kind 0).setup [],
            persist := [], nextId := 1 }

/-- `Game.on_draw`: `ac.start_render()` then the active state's `draw`
hook.  The hook never reassigns `self.state`. -/
def Game.on_draw (g : Game) : Except Signal Game :=
  match g.state.draw with
  | .error e => .error e
  | .ok st => .ok { g with state := st }

/-- `Game.on_key_press`: forwards the event to the active state's
`key_down` hook. -/
def Game.on_key_press (g : Game) (key mod : Nat) : Except Signal Game :=
  match g.state.key_down key mod with
  | .error e => .error e
  | .ok st => .ok { g with state := st }

/-- `Game.on_key_release`: forwards the event to the active state's
`key_release` hook. -/
def Game.on_key_release (g : Game) (key mod : Nat) : Except Signal Game :=
  .ok { g with state := g.state.key_release key mod }

/-- `Game.flip_state`: captures `self.state.persist`, clears the old
instance's `done`, constructs `self.states[self.state.next_state]()` (a
`KeyError` when `next_state` is `None` or not a registry key) and calls
the fresh instance's `setup` with the captured bag. -/
def Game.flip_state (g : Game) : Except Signal Game :=
  let persist := g.state.persist
  let st0 := { g.state with done := false }
  match st0.next_state with
  | none => .error (.keyError none)
  | some k =>
      match regLookup g.states k with
      | none => .error (.keyError (some k))
      | some kind =>
          .ok { g with state := (State.init kind g.nextId).setup persist,
                       nextId := g.nextId + 1 }

/-- `Game.check_state`: if the active state's `done` is set, flip to the
next state; then, if the (possibly new) active state's `quit` is set, call
`quit()` (modelled as the `sysExit` signal). -/
def Game.check_state (g : Game) : Except Signal Game :=
  match (if g.state.done then g.flip_state else .ok g) with
  | .error e => .error e
  | .ok g1 => if g1.state.quit then .error .sysExit else .ok g1

/-- `Game.update(delta_time)`: runs `check_state`, then dispatches
`update` to the (possibly new) active state.  `x` is the value drawn by
`randint(150, 200)` inside the state's `update` hook. -/
def Game.update (g : Game) (x : Nat) (dt : Nat) : Except Signal Game :=
  match g.check_state with
  | .error e => .error e
  | .ok g1 => .ok { g1 with state := g1.state.update x dt }

/-- The registry built in `main()`. -/
def game_states : Registry := [("MAIN", .mainMenu), ("SCENE", .scene)]

/-- The driver constructed in `main()` as it stands immediately after
`Game(WIDTH, HEIGHT, game_states, "MAIN")` returns. -/
def mainGame : Game :=
  { width := 600, height := 600, states := game_states,
    state := (State.init .mainMenu 0).setup [],
    persist := [], nextId := 1 }

/-- Input events deliverable through the non-frame callbacks: `on_draw`,
`on_key_press`, `on_key_release`. -/
inductive InEvent where
  | draw
  | keyDown (key mod : Nat)
  | keyUp (key mod : Nat)
  deriving DecidableEq, Repr

/-- Dispatch of one non-frame callback. -/
def Game.handleEvent (g : Game) (e : InEvent) : Except Signal Game :=
  match e with
  | .draw => g.on_draw
  | .keyDown key mod => g.on_key_press key mod
  | .keyUp key mod => g.on_key_release key mod

/-- Dispatch of a sequence of non-frame callbacks, stopping at the first
raised exception. -/
def Game.handleEvents (g : Game) : List InEvent → Except Signal Game
  | [] => .ok g
  | e :: es =>
      match g.handleEvent e with
      | .error err => .error err
      | .ok g1 => g1.handleEvents es

/-! ## Helper lemmas -/

theorem setup_fields (kind : StateKind) (id : Nat) (b : PersistBag) :
    ((State.init kind id).setup b).kind = kind ∧
    ((State.init kind id).setup b).instId = id ∧
    ((State.init kind id).setup b).persist = b ∧
    ((State.init kind id).setup b).done = false ∧
    ((State.init kind id).setup b).quit = false ∧
    ((State.init kind id).setup b).next_state = none := by
  cases kind <;> exact ⟨rfl, rfl, rfl, rfl, rfl, rfl⟩

theorem update_fields (s : State) (x dt : Nat) :
    (s.update x dt).kind = s.kind ∧
    (s.update x dt).instId = s.instId ∧
    (s.update x dt).persist = s.persist ∧
    (s.update x dt).done = s.done ∧
    (s.update x dt).quit = s.quit ∧
    (s.update x dt).next_state = s.next_state := by
  obtain ⟨k, i, p, n, d, q, t, tp, c⟩ := s
  cases k <;> exact ⟨rfl, rfl, rfl, rfl, rfl, rfl⟩

theorem draw_ok_eq {s s' : State} (h : s.draw = .ok s') : s' = s := by
  obtain ⟨k, i, p, n, d, q, t, tp, c⟩ := s
  cases k <;> cases c <;> cases t <;> cases tp <;>
    simp [State.draw] at h <;> exact h.symm

/-- Inversion of a successful `flip_state`: `next_state` was a registered
key and the result installs a freshly constructed and set-up instance. -/
theorem flip_ok_inv {g g1 : Game} (h : g.flip_state = .ok g1) :
    ∃ k kind, g.state.next_state = some k ∧ regLookup g.states k = some kind ∧
      g1 = { g with state := (State.init kind g.nextId).setup g.state.persist,
                    nextId := g.nextId + 1 } := by
  unfold Game.flip_state at h
  cases hns : g.state.next_state with
  | none => simp [hns] at h
  | some k =>
      cases hreg : regLookup g.states k with
      | none => simp [hns, hreg] at h
      | some kind =>
          refine ⟨k, kind, rfl, hreg, ?_⟩
          simp [hns, hreg] at h
          exact h.symm

theorem flip_ok_quit_false {g g1 : Game} (h : g.flip_state = .ok g1) :
    g1.state.quit = false := by
  obtain ⟨k, kind, -, -, hg⟩ := flip_ok_inv h
  subst hg
  exact (setup_fields kind g.nextId g.state.persist).2.2.2.2.1

/-- Inversion of a successful `Game.update`: either no transition was
pending and the old state received the `update` dispatch, or exactly one
flip happened and the fresh instance received it. -/
theorem update_ok_inv {g g' : Game} {x dt : Nat} (h : g.update x dt = .ok g') :
    (g.state.done = false ∧ g.state.quit = false ∧
       g' = { g with state := g.state.update x dt }) ∨
    (g.state.done = true ∧ ∃ k kind,
       g.state.next_state = some k ∧ regLookup g.states k = some kind ∧
       g' = { g with
              state := ((State.init kind g.nextId).setup g.state.persist).update x dt,
              nextId := g.nextId + 1 }) := by
  cases hd : g.state.done with
  | false =>
      left
      cases hq : g.state.quit with
      | false =>
          refine ⟨rfl, rfl, ?_⟩
          simp [Game.update, Game.check_state, hd, hq] at h
          exact h.symm
      | true => simp [Game.update, Game.check_state, hd, hq] at h
  | true =>
      right
      refine ⟨rfl, ?_⟩
      unfold Game.update Game.check_state at h
      rw [hd] at h
      cases hf : g.flip_state with
      | error e => simp [hf] at h
      | ok gf =>
          rw [hf] at h
          simp [flip_ok_quit_false hf] at h
          obtain ⟨k, kind, hns, hreg, hg⟩ := flip_ok_inv hf
          subst hg
          exact ⟨k, kind, hns, hreg, h.symm⟩

/-! ## Concrete runs used by witnesses and counterexamples -/

/-- The driver after `main`'s game receives a SPACE key press: the active
`MainMenu` has set `done`, `next_state = "SCENE"` and stored the moved
text position into its persist bag. -/
def menuDoneGame : Game :=
  match mainGame.on_key_press SPACE 0 with
  | .ok g => g
  | .error _ => mainGame

/-- The result of the frame update following `menuDoneGame`. -/
def menuDoneRes : Game :=
  match menuDoneGame.update 150 16 with
  | .ok g => g
  | .error _ => mainGame

/-- The driver after `main`'s game receives an ESCAPE key press: the
active `MainMenu` has set `quit` but not `done`. -/
def escGame : Game :=
  match mainGame.on_key_press ESCAPE 0 with
  | .ok g => g
  | .error _ => mainGame

/-- The driver after `main`'s game receives ESCAPE and then SPACE: the
active `MainMenu` has set both `quit` and `done` (with a valid
`next_state`). -/
def escSpaceGame : Game :=
  match (mainGame.on_key_press ESCAPE 0).bind (fun g => g.on_key_press SPACE 0) with
  | .ok g => g
  | .error _ => mainGame

/-- The result of a successful `flip_state` from `escSpaceGame`. -/
def escSpaceFlip : Game :=
  match escSpaceGame.flip_state with
  | .ok g => g
  | .error _ => mainGame

/-- The active-state class of a frame-update result, `none` on a raised
exception. -/
def runKind : Except Signal Game → Option StateKind
  | .ok g => some g.state.kind
  | .error _ => none

/-- The fresh-instance counter of a frame-update result. -/
def runNextId : Except Signal Game → Option Nat
  | .ok g => some g.nextId
  | .error _ => none

/-- The `"text_position"` entry of the active state's persist bag in a
frame-update result. -/
def runPersistTextPos : Except Signal Game → Option PVal
  | .ok g => bagLookup g.state.persist "text_position"
  | .error _ => none

/-- Whether a run ended in `quit()` (the `SystemExit` signal). -/
def raisedSysExit : Except Signal Game → Bool
  | .error .sysExit => true
  | _ => false

/-- The scenario run of §8: `main`'s game, a SPACE key press, then the
next frame update (random draw 150, `delta_time` 16). -/
def spaceRun : Except Signal Game :=
  (mainGame.on_key_press SPACE 0).bind (fun g => g.update 150 16)

/-- `main`'s game with the active state's `done` forced on while
`next_state` is still `None`. -/
def doneNoNextGame : Game :=
  { mainGame with state := { mainGame.state with done := true } }

/-- `main`'s game with the active state's `done` forced on and
`next_state` set to a key absent from the registry. -/
def doneBadKeyGame : Game :=
  { mainGame with
    state := { mainGame.state with done := true, next_state := some "LEVEL" } }

/-! ## Claims -/

/-- Claim C1: for every registered key `X` and every active state that has
set `done = true`, `next_state = "X"` and stored `persist["p"] = v` before
the tick completes, the driver's next `update` replaces the active state
with a fresh instance constructed from `registry["X"]` and calls its
`setup` hook with the captured bag, so the new active state's
`persist["p"] = v`. -/
theorem transition_carries_persist (g : Game) (X : String) (kind : StateKind)
    (p : String) (v : PVal) (x dt : Nat)
    (hdone : g.state.done = true)
    (hnext : g.state.next_state = some X)
    (hreg : regLookup g.states X = some kind)
    (hp : bagLookup g.state.persist p = some v) :
    ∃ g', g.update x dt = .ok g' ∧
      g'.state.kind = kind ∧
      g'.state.instId = g.nextId ∧
      bagLookup g'.state.persist p = some v := by
  have hq : ((State.init kind g.nextId).setup g.state.persist).quit = false :=
    (setup_fields kind g.nextId g.state.persist).2.2.2.2.1
  refine ⟨{ g with
            state := ((State.init kind g.nextId).setup g.state.persist).update x dt,
            nextId := g.nextId + 1 }, ?_, ?_, ?_, ?_⟩
  · simp [Game.update, Game.check_state, Game.flip_state, hdone, hnext, hreg, hq]
  · rw [(update_fields _ x dt).1, (setup_fields kind g.nextId g.state.persist).1]
  · rw [(update_fields _ x dt).2.1, (setup_fields kind g.nextId g.state.persist).2.1]
  · rw [(update_fields _ x dt).2.2.1,
        (setup_fields kind g.nextId g.state.persist).2.2.1]
    exact hp

/-- Witness for C1 at the concrete scenario game: after SPACE, the menu
state has `done`, `next_state = "SCENE"` and `persist["text_position"] =
[10, 310]`, and the next frame update installs a fresh `Scene` carrying
that entry. -/
theorem transition_carries_persist_witness :
    menuDoneGame.state.done = true ∧
    menuDoneGame.state.next_state = some "SCENE" ∧
    regLookup menuDoneGame.states "SCENE" = some .scene ∧
    bagLookup menuDoneGame.state.persist "text_position" = some (.pos 10 310) ∧
    ∃ g', menuDoneGame.update 150 16 = .ok g' ∧
      g'.state.kind = .scene ∧
      g'.state.instId = menuDoneGame.nextId ∧
      bagLookup g'.state.persist "text_position" = some (.pos 10 310) :=
  ⟨rfl, rfl, rfl, rfl,
   transition_carries_persist menuDoneGame "SCENE" .scene "text_position"
     (.pos 10 310) 150 16 rfl rfl rfl rfl⟩

/-- Claim C3: at most one state transition is performed during a single
`update` call (the fresh-instance counter grows by at most one), and with
no pending `done` no transition at all is performed; re-evaluation of the
transition policy is deferred to the next call. -/
theorem at_most_one_transition (g : Game) (x dt : Nat) (g' : Game)
    (h : g.update x dt = .ok g') :
    g'.nextId ≤ g.nextId + 1 ∧
    (g.state.done = false → g'.nextId = g.nextId) := by
  rcases update_ok_inv h with ⟨hd, -, hg⟩ | ⟨hd, k, kind, -, -, hg⟩
  · subst hg
    exact ⟨Nat.le_succ _, fun _ => rfl⟩
  · subst hg
    refine ⟨Nat.le_refl _, fun hf => ?_⟩
    rw [hd] at hf
    exact Bool.noConfusion hf

/-- Witness for C3 at the concrete scenario game: the frame update after
SPACE performs exactly one transition. -/
theorem at_most_one_transition_witness :
    menuDoneGame.update 150 16 = .ok menuDoneRes ∧
    menuDoneRes.nextId ≤ menuDoneGame.nextId + 1 ∧
    (menuDoneGame.state.done = false → menuDoneRes.nextId = menuDoneGame.nextId) :=
  ⟨rfl,
   (at_most_one_transition menuDoneGame 150 16 menuDoneRes rfl).1,
   (at_most_one_transition menuDoneGame 150 16 menuDoneRes rfl).2⟩

/-- Claim C5: constructing the driver with an `initial_state` key absent
from the registry fails immediately (a `KeyError` at startup); for every
key present in the registry, construction succeeds, builds the first state
via `registry[initial_state]()` and calls its `setup` hook with an empty
persist bag. -/
theorem init_missing_key_fails (w h : Nat) (states : Registry) (k : String) :
    (regLookup states k = none →
       Game.init w h states k = .error (.keyError (some k))) ∧
    (∀ kind, regLookup states k = some kind →
       Game.init w h states k =
         .ok { width := w, height := h, states := states,
               state := (State.init kind 0).setup [],
               persist := [], nextId := 1 }) := by
  constructor
  · intro hnone
    simp [Game.init, hnone]
  · intro kind hk
    simp [Game.init, hk]

/-- Witness for C5: the key `"LEVEL"` is absent from `main`'s registry and
construction fails; `"MAIN"` is present and construction succeeds with a
set-up `MainMenu` and an empty bag. -/
theorem init_missing_key_fails_witness :
    (regLookup game_states "LEVEL" = none ∧
     Game.init 600 600 game_states "LEVEL" = .error (.keyError (some "LEVEL"))) ∧
    (regLookup game_states "MAIN" = some .mainMenu ∧
     Game.init 600 600 game_states "MAIN" =
       .ok { width := 600, height := 600, states := game_states,
             state := (State.init .mainMenu 0).setup [],
             persist := [], nextId := 1 }) :=
  ⟨⟨rfl, (init_missing_key_fails 600 600 game_states "LEVEL").1 rfl⟩,
   ⟨rfl, (init_missing_key_fails 600 600 game_states "MAIN").2 .mainMenu rfl⟩⟩

/-- Claim C6: if the active state has set `done = true` but its
`next_state` is not a valid registry key (for instance was never set), the
next `update` raises a `KeyError` at the offending transition instead of
silently skipping the transition and continuing. -/
theorem invalid_next_fails_fast (g : Game) (x dt : Nat)
    (hdone : g.state.done = true)
    (hbad : ∀ k, g.state.next_state = some k → regLookup g.states k = none) :
    g.update x dt = .error (.keyError g.state.next_state) := by
  cases hns : g.state.next_state with
  | none => simp [Game.update, Game.check_state, Game.flip_state, hdone, hns]
  | some k =>
      simp [Game.update, Game.check_state, Game.flip_state, hdone, hns, hbad k hns]

/-- Witness for C6 at the two offending shapes: `done` with `next_state`
still `None`, and `done` with an unregistered `next_state` key. -/
theorem invalid_next_fails_fast_witness :
    (doneNoNextGame.state.done = true ∧
     doneNoNextGame.update 150 16 = .error (.keyError none)) ∧
    (doneBadKeyGame.state.done = true ∧
     doneBadKeyGame.update 150 16 = .error (.keyError (some "LEVEL"))) :=
  ⟨⟨rfl, invalid_next_fails_fast doneNoNextGame 150 16 rfl
           (fun k hk => Option.noConfusion hk)⟩,
   ⟨rfl, invalid_next_fails_fast doneBadKeyGame 150 16 rfl
           (fun k hk => by
             injection hk with h
             subst h
             rfl)⟩⟩

/-- Claim C8: when a transition is performed during an `update` call
(pending `done`, no pending `quit`, registered `next_state`), that same
call's `update` dispatch goes to the freshly constructed successor, which
thus receives its `setup` and its first `update` within the same tick,
while the replaced state receives no `update` that tick. -/
theorem successor_receives_update (g : Game) (x dt : Nat) (k : String)
    (kind : StateKind)
    (hdone : g.state.done = true) (hquit : g.state.quit = false)
    (hns : g.state.next_state = some k)
    (hreg : regLookup g.states k = some kind) :
    g.update x dt =
      .ok { g with
            state := ((State.init kind g.nextId).setup g.state.persist).update x dt,
            nextId := g.nextId + 1 } := by
  have hq : ((State.init kind g.nextId).setup g.state.persist).quit = false :=
    (setup_fields kind g.nextId g.state.persist).2.2.2.2.1
  simp [Game.update, Game.check_state, Game.flip_state, hdone, hns, hreg, hq]

/-- Witness for C8 at the concrete scenario game. -/
theorem successor_receives_update_witness :
    menuDoneGame.state.done = true ∧
    menuDoneGame.state.quit = false ∧
    menuDoneGame.state.next_state = some "SCENE" ∧
    regLookup menuDoneGame.states "SCENE" = some .scene ∧
    menuDoneGame.update 150 16 =
      .ok { menuDoneGame with
            state := ((State.init .scene menuDoneGame.nextId).setup
                        menuDoneGame.state.persist).update 150 16,
            nextId := menuDoneGame.nextId + 1 } :=
  ⟨rfl, rfl, rfl, rfl,
   successor_receives_update menuDoneGame 150 16 "SCENE" .scene rfl rfl rfl rfl⟩

/-- Claim C9: for a freshly constructed `MainMenu` or `Scene` instance on
which only `setup` has run, the `draw` hook fails with an
`AttributeError` on `col`: `col` is assigned only inside `update` and is
not initialised by the constructor or by `setup`. -/
theorem draw_before_update_fails (id : Nat) (b : PersistBag) :
    (((State.init .mainMenu id).setup b).col = none ∧
     ((State.init .mainMenu id).setup b).draw = .error (.attrError "col")) ∧
    (((State.init .scene id).setup b).col = none ∧
     ((State.init .scene id).setup b).draw = .error (.attrError "col")) :=
  ⟨⟨rfl, rfl⟩, ⟨rfl, rfl⟩⟩

/-- Counterexample to C2 as stated: in `check_state` the `done` flag is
tested before the `quit` flag.  Reached by actual input from `main`'s
game (ESCAPE then SPACE), the active state has both `quit = true` and
`done = true`; the next frame update performs the transition (a fresh
instance is constructed, the active class becomes `Scene`) and does not
raise `SystemExit`, contradicting "if the quit flag is set ... no
transition is performed". -/
theorem quit_not_checked_first_cex :
    escSpaceGame.state.quit = true ∧
    escSpaceGame.state.done = true ∧
    escSpaceGame.nextId = 1 ∧
    raisedSysExit (escSpaceGame.update 150 16) = false ∧
    runKind (escSpaceGame.update 150 16) = some .scene ∧
    runNextId (escSpaceGame.update 150 16) = some 2 := by
  exact ⟨rfl, rfl, rfl, rfl, rfl, rfl⟩

/-- Claim C2 (amended): in every `update` call the `done` flag is
evaluated before the `quit` flag.  If `done` is clear and the active
state's `quit` flag is set, the driver signals process termination and
performs no further dispatch that tick (no transition, no `update`
dispatch).  If `done` is set, the transition is performed first and the
`quit` flag consulted is that of the freshly installed state (which is
clear by construction), so the tick continues with the new state. -/
theorem done_checked_before_quit (g : Game) (x dt : Nat) :
    (g.state.done = false → g.state.quit = true →
       g.update x dt = .error .sysExit) ∧
    (g.state.done = true → ∀ g1, g.flip_state = .ok g1 →
       g.update x dt = .ok { g1 with state := g1.state.update x dt }) := by
  constructor
  · intro hdone hquit
    simp [Game.update, Game.check_state, hdone, hquit]
  · intro hdone g1 hflip
    simp [Game.update, Game.check_state, hdone, hflip, flip_ok_quit_false hflip]

/-- Witness for the amended C2, exercising both branches on concrete
games: after ESCAPE alone the next update raises `SystemExit`; after
ESCAPE and SPACE the next update flips and dispatches to the successor. -/
theorem done_checked_before_quit_witness :
    (escGame.state.done = false ∧ escGame.state.quit = true ∧
     escGame.update 150 16 = .error .sysExit) ∧
    (escSpaceGame.state.done = true ∧
     escSpaceGame.flip_state = .ok escSpaceFlip ∧
     escSpaceGame.update 150 16 =
       .ok { escSpaceFlip with state := escSpaceFlip.state.update 150 16 }) :=
  ⟨⟨rfl, rfl, (done_checked_before_quit escGame 150 16).1 rfl rfl⟩,
   ⟨rfl, rfl,
    (done_checked_before_quit escSpaceGame 150 16).2 rfl escSpaceFlip rfl⟩⟩

/-- Counterexample to C4 as stated: in the §8 scenario (registry of
`main`, initial state `"MAIN"`, a SPACE key press, then the next frame
update) the carried entry `persist["text_position"]` is `[10, 310]` — the
default position `[0, 300]` plus the increment `(10, 10)` — and not
`[10, 10]` as the claim's concrete figure asserts. -/
theorem scenario_position_cex :
    runKind spaceRun = some .scene ∧
    runPersistTextPos spaceRun = some (.pos 10 310) ∧
    runPersistTextPos spaceRun ≠ some (.pos 10 10) := by
  refine ⟨rfl, rfl, ?_⟩
  intro h
  have h2 : PVal.pos 10 310 = PVal.pos 10 10 := by
    have h1 : runPersistTextPos spaceRun = some (.pos 10 310) := rfl
    exact Option.some.inj (h1.symm.trans h)
  cases h2

/-- Claim C4 (amended): with registry `{"MAIN": MainMenu, "SCENE":
Scene}` and initial state `"MAIN"`, after a key-down with SPACE the
driver's active state becomes `Scene` on the following update tick, and
`persist["text_position"]` equals the `MainMenu`'s position plus its
configured increment: `[10, 310]`, the default start `[0, 300]`
incremented by `(10, 10)`. -/
theorem scenario_space_advances (x dt : Nat) :
    Game.init 600 600 game_states "MAIN" = .ok mainGame ∧
    ∃ g1 g2, mainGame.on_key_press SPACE 0 = .ok g1 ∧
      g1.update x dt = .ok g2 ∧
      g2.state.kind = .scene ∧
      bagLookup g2.state.persist "text_position" = some (.pos 10 310) ∧
      g2.state.text_position = some (10, 310) := by
  refine ⟨rfl, menuDoneGame, _, rfl, rfl, rfl, rfl, rfl⟩

theorem key_down_kind_instId {s s' : State} {key mod : Nat}
    (h : s.key_down key mod = .ok s') :
    s'.kind = s.kind ∧ s'.instId = s.instId := by
  obtain ⟨k, i, p, n, d, q, t, tp, c⟩ := s
  cases k <;>
    [skip;
     (simp only [State.key_down] at h;
      by_cases hesc : key = ESCAPE <;>
        [rw [if_pos hesc] at h; rw [if_neg hesc] at h] <;>
      by_cases hsp : key = SPACE <;>
        [rw [if_pos hsp] at h; rw [if_neg hsp] at h;
         rw [if_pos hsp] at h; rw [if_neg hsp] at h]);
     (simp only [State.key_down] at h;
      by_cases hesc : key = ESCAPE <;>
        [rw [if_pos hesc] at h; rw [if_neg hesc] at h] <;>
      by_cases hsp : key = SPACE <;>
        [rw [if_pos hsp] at h; rw [if_neg hsp] at h;
         rw [if_pos hsp] at h; rw [if_neg hsp] at h])] <;>
  first
  | (injection h with h2; subst h2; exact ⟨rfl, rfl⟩)
  | (cases tp with
     | none => exact Except.noConfusion h
     | some xy =>
         obtain ⟨tx, ty⟩ := xy
         injection h with h2
         subst h2
         exact ⟨rfl, rfl⟩)

theorem handleEvent_preserves {g g' : Game} {e : InEvent}
    (h : g.handleEvent e = .ok g') :
    g'.state.kind = g.state.kind ∧ g'.state.instId = g.state.instId ∧
    g'.nextId = g.nextId ∧ g'.states = g.states := by
  cases e with
  | draw =>
      simp only [Game.handleEvent, Game.on_draw] at h
      cases hd : g.state.draw with
      | error e => rw [hd] at h; exact Except.noConfusion h
      | ok st =>
          rw [hd] at h
          injection h with h2
          subst h2
          rw [draw_ok_eq hd]
          exact ⟨rfl, rfl, rfl, rfl⟩
  | keyDown key mod =>
      simp only [Game.handleEvent, Game.on_key_press] at h
      cases hd : g.state.key_down key mod with
      | error e => rw [hd] at h; exact Except.noConfusion h
      | ok st =>
          rw [hd] at h
          injection h with h2
          subst h2
          obtain ⟨h1, h2⟩ := key_down_kind_instId hd
          exact ⟨h1, h2, rfl, rfl⟩
  | keyUp key mod =>
      simp only [Game.handleEvent, Game.on_key_release] at h
      injection h with h2
      subst h2
      exact ⟨rfl, rfl, rfl, rfl⟩

/-- Claim C7: for every sequence of `on_draw`, `on_key_press` and
`on_key_release` callbacks, the identity of the active state is unchanged
— the callbacks are pure pass-throughs to the active state's hooks and
contain no transition logic (neither the instance identity nor the class
of the active state changes, no fresh instance is constructed, and the
registry is untouched); only `update` may replace the active state. -/
theorem callbacks_never_switch_state (g : Game) (evs : List InEvent) (g' : Game)
    (h : g.handleEvents evs = .ok g') :
    g'.state.kind = g.state.kind ∧ g'.state.instId = g.state.instId ∧
    g'.nextId = g.nextId ∧ g'.states = g.states := by
  induction evs generalizing g with
  | nil =>
      unfold Game.handleEvents at h
      injection h with h2
      subst h2
      exact ⟨rfl, rfl, rfl, rfl⟩
  | cons e es ih =>
      unfold Game.handleEvents at h
      cases he : g.handleEvent e with
      | error err => rw [he] at h; exact Except.noConfusion h
      | ok g1 =>
          rw [he] at h
          obtain ⟨h1, h2, h3, h4⟩ := handleEvent_preserves he
          obtain ⟨i1, i2, i3, i4⟩ := ih g1 h
          exact ⟨i1.trans h1, i2.trans h2, i3.trans h3, i4.trans h4⟩

/-- A concrete sequence of non-frame callbacks delivered to `main`'s
game: SPACE pressed (which sets `done` on the menu), a key released, and
an unrelated key pressed. -/
def someEvents : List InEvent := [.keyDown SPACE 0, .keyUp 97 0, .keyDown 97 0]

/-- The game after `someEvents`. -/
def someEventsRes : Game :=
  match mainGame.handleEvents someEvents with
  | .ok g => g
  | .error _ => mainGame

/-- Witness for C7: delivering `someEvents` (including the SPACE press
that requests a transition) leaves the same `MainMenu` instance active. -/
theorem callbacks_never_switch_state_witness :
    mainGame.handleEvents someEvents = .ok someEventsRes ∧
    someEventsRes.state.kind = mainGame.state.kind ∧
    someEventsRes.state.instId = mainGame.state.instId ∧
    someEventsRes.nextId = mainGame.nextId ∧
    someEventsRes.states = mainGame.states :=
  ⟨rfl,
   (callbacks_never_switch_state mainGame someEvents someEventsRes rfl).1,
   (callbacks_never_switch_state mainGame someEvents someEventsRes rfl).2.1,
   (callbacks_never_switch_state mainGame someEvents someEventsRes rfl).2.2.1,
   (callbacks_never_switch_state mainGame someEvents someEventsRes rfl).2.2.2⟩

/-- Claim C10: for `MainMenu` and `Scene`, only the `key_down` hook can
set the `done`, `quit` or `next_state` flags: for every key other than
SPACE and ESCAPE, `key_down` returns the state entirely unchanged (so
`done`, `quit`, `next_state`, `persist` and `text_position` are
untouched), and the `update` and `draw` hooks never modify `done`,
`quit`, `next_state` or `persist` regardless of input. -/
theorem only_key_down_sets_flags (s : State) (key mod x dt : Nat)
    (hkind : s.kind = .mainMenu ∨ s.kind = .scene)
    (hspace : key ≠ SPACE) (hesc : key ≠ ESCAPE) :
    s.key_down key mod = .ok s ∧
    (s.update x dt).done = s.done ∧
    (s.update x dt).quit = s.quit ∧
    (s.update x dt).next_state = s.next_state ∧
    (s.update x dt).persist = s.persist ∧
    (∀ s', s.draw = .ok s' → s' = s) := by
  refine ⟨?_, (update_fields s x dt).2.2.2.1, (update_fields s x dt).2.2.2.2.1,
          (update_fields s x dt).2.2.2.2.2, (update_fields s x dt).2.2.1,
          fun s' h => draw_ok_eq h⟩
  rcases hkind with h | h <;> simp [State.key_down, h, hspace, hesc]

/-- Witness for C10 at the concrete `MainMenu` of `main`'s game and the
unrelated key `97` (the letter A). -/
theorem only_key_down_sets_flags_witness :
    (mainGame.state.kind = .mainMenu ∨ mainGame.state.kind = .scene) ∧
    (97 : Nat) ≠ SPACE ∧ (97 : Nat) ≠ ESCAPE ∧
    mainGame.state.key_down 97 0 = .ok mainGame.state ∧
    (mainGame.state.update 150 16).done = mainGame.state.done :=
  ⟨Or.inl rfl, by decide, by decide,
   (only_key_down_sets_flags mainGame.state 97 0 150 16 (Or.inl rfl)
      (by decide) (by decide)).1,
   (only_key_down_sets_flags mainGame.state 97 0 150 16 (Or.inl rfl)
      (by decide) (by decide)).2.1⟩

end ArcadeSM
